import Mathlib

/-!
Shallow embedding of the control-plane agent in
`src/proto/demo_grpc/simple_router_mgr.cpp` (class `SimpleRouterMgr` and its
helper handlers).  Machine integers are modelled as `Nat` (values produced by
the encoders are reduced modulo 2^8 / 2^16 / 2^32 exactly where the C code
truncates).  Device RPC results (table-write error counts, update status
codes) are external inputs: error counts are threaded through the state as a
stream `deviceErrs`, status codes are passed as arguments.  Effects on the
device are recorded as traces (`deviceEntries` for table writes, `outPackets`
for packet-out messages).
-/

/-- Symbolic table names passed to `pi_p4info_table_id_from_name`. -/
inductive TableName where
  | ipv4_lpm
  | forward
  | send_frame
deriving DecidableEq, Repr

/-- Symbolic action names passed to `pi_p4info_action_id_from_name`
(`drop_` stands for the source's `"_drop"`). -/
inductive ActionName where
  | set_nhop
  | set_dmac
  | rewrite_mac
  | drop_
deriving DecidableEq, Repr

/-- Symbolic field names passed to `pi_p4info_field_id_from_name`. -/
inductive FieldName where
  | ipv4_dstAddr
  | nhop_ipv4
  | egress_port
deriving DecidableEq, Repr

/-- Symbolic action-parameter names passed to
`pi_p4info_action_param_id_from_name`. -/
inductive ParamName where
  | nhop_ipv4
  | port
  | dmac
  | smac
deriving DecidableEq, Repr

/-- The name-to-id resolution capability of the pipeline-description library
(`pi_p4info_*_id_from_name`); the library itself is an external collaborator,
so it is modelled as an abstract id assignment. -/
structure P4Info where
  tableId : TableName → Nat
  actionId : ActionName → Nat
  fieldId : FieldName → Nat
  paramId : Nat → ParamName → Nat

/-- A match field of a `p4::TableEntry`: exact (value) or LPM
(value, prefix length). -/
inductive MatchFieldV where
  | exact (fieldId : Nat) (value : List Nat)
  | lpm (fieldId : Nat) (value : List Nat) (pLen : Nat)
deriving DecidableEq, Repr

/-- The action part of a `p4::TableEntry`: action id plus ordered
`(param id, value)` pairs. -/
structure ActionRefV where
  actionId : Nat
  params : List (Nat × List Nat)
deriving DecidableEq, Repr

/-- A `p4::TableEntry` as built by `SimpleRouterMgr`. -/
structure TableEntry where
  tableId : Nat
  matchFields : List MatchFieldV
  action : ActionRefV
deriving DecidableEq, Repr

/-- `p4::tmp::CounterData` (only the fields the manager reads). -/
structure CounterData where
  packets : Nat
  bytes : Nat
deriving DecidableEq, Repr

/-- `SimpleRouterMgr::Iface` : one router-facing port. -/
structure Iface where
  port_num : Nat
  ip_addr : Nat
  mac_addr : List Nat
deriving DecidableEq, Repr

/-- A raw packet payload, one `Nat` (0..255) per byte. -/
abbrev Packet := List Nat

/-- The mutable state owned by `SimpleRouterMgr`, together with the traces of
its externally visible effects.  `nextHops` embeds the `std::map` `next_hops`,
`packetQueues` embeds `packet_queues`, `ifaces` embeds the `std::vector`
`ifaces`.  `outPackets` records every `send_packetout` in order,
`deviceEntries` records every `add_one_entry` table write in order, and
`deviceErrs` is the stream of error counts the device returns to successive
table writes. -/
structure RouterState where
  nextHops : List (Nat × Nat)
  packetQueues : List (Nat × List Packet)
  ifaces : List Iface
  p4info : P4Info
  outPackets : List Packet
  deviceEntries : List TableEntry
  deviceErrs : List Nat

/-- First-match association-list lookup (embeds `std::map::find`). -/
def lookupAssoc {α : Type} : List (Nat × α) → Nat → Option α
  | [], _ => none
  | (k', v) :: rest, k => if k' = k then some v else lookupAssoc rest k

/-- Insert-or-assign (embeds `next_hops[nhop] = port`). -/
def updateAssoc : List (Nat × Nat) → Nat → Nat → List (Nat × Nat)
  | [], k, v => [(k, v)]
  | (k', v') :: rest, k, v =>
      if k' = k then (k', v) :: rest else (k', v') :: updateAssoc rest k v

/-- `std::map::operator[]` for read access: returns the mapped value, default
inserting a zero value when the key is absent (this is exactly what
`next_hops[dst_addr]` does inside `handle_arp_reply`). -/
def mapGetOrInsert (m : List (Nat × Nat)) (k : Nat) : Nat × List (Nat × Nat) :=
  match lookupAssoc m k with
  | some v => (v, m)
  | none => (0, m ++ [(k, 0)])

/-- `packet_queues[dst_addr].push_back(pkt)`: creates the queue if absent,
otherwise appends to the existing queue (FIFO). -/
def enqueuePQ : List (Nat × List Packet) → Nat → Packet → List (Nat × List Packet)
  | [], k, p => [(k, [p])]
  | (k', q) :: rest, k, p =>
      if k' = k then (k', q ++ [p]) :: rest else (k', q) :: enqueuePQ rest k p

/-- `std::map::erase` of a key (embeds `packet_queues.erase(it)`). -/
def eraseAssoc {α : Type} : List (Nat × α) → Nat → List (Nat × α)
  | [], _ => []
  | (k', v) :: rest, k => if k' = k then rest else (k', v) :: eraseAssoc rest k

/-- Big-endian 16-bit value from two bytes (embeds `ntohs`). -/
def be16 (a b : Nat) : Nat := a * 256 + b

/-- Big-endian 32-bit value from four bytes (embeds `ntohl`). -/
def be32 (a b c d : Nat) : Nat := ((a * 256 + b) * 256 + c) * 256 + d

/-- `uint_to_string<uint16_t>`: a 16-bit value as 2 big-endian bytes. -/
def uint_to_string16 (i : Nat) : List Nat := [i / 256 % 256, i % 256]

/-- `uint_to_string<uint32_t>`: a 32-bit value as 4 big-endian bytes. -/
def uint_to_string32 (i : Nat) : List Nat :=
  [i / 16777216 % 256, i / 65536 % 256, i / 256 % 256, i % 256]

/-- `set_cpu_header`: 8 zero bytes, then `reason` and `port` as 16-bit
big-endian values (12 bytes in total, the layout of `cpu_header_t`). -/
def set_cpu_header (reason port : Nat) : List Nat :=
  [0, 0, 0, 0, 0, 0, 0, 0] ++ uint_to_string16 reason ++ uint_to_string16 port

/-- `set_eth_header`: destination MAC, source MAC, big-endian ethertype
(14 bytes, the layout of `eth_header_t`). -/
def set_eth_header (dst src : List Nat) (ethertype : Nat) : List Nat :=
  dst ++ src ++ uint_to_string16 ethertype

/-- `set_arp_header`: hw type 1, proto type 0x800, addr lengths 6 and 4, then
opcode, sender MAC/IP, target MAC/IP, all multi-byte fields big-endian
(28 bytes, the layout of `arp_header_t`). -/
def set_arp_header (opcode : Nat) (hwSrc : List Nat) (protoSrc : Nat)
    (hwDst : List Nat) (protoDst : Nat) : List Nat :=
  uint_to_string16 1 ++ uint_to_string16 0x800 ++ [6, 4] ++
  uint_to_string16 opcode ++ hwSrc ++ uint_to_string32 protoSrc ++
  hwDst ++ uint_to_string32 protoDst

/-- The decoded `arp_header_t` (after the byte-order conversions the packet
handler performs). -/
structure arp_header_t where
  hw_type : Nat
  proto_type : Nat
  hw_addr_len : Nat
  proto_addr_len : Nat
  opcode : Nat
  hw_src_addr : List Nat
  proto_src_addr : Nat
  hw_dst_addr : List Nat
  proto_dst_addr : Nat
deriving DecidableEq, Repr

/-- Decode an `arp_header_t` from (at least) 28 bytes, with `ntohs`/`ntohl`
applied to every multi-byte field, as `PacketHandler::operator()` does. -/
def parse_arp_header (b : List Nat) : arp_header_t :=
  { hw_type := be16 (b.getD 0 0) (b.getD 1 0)
  , proto_type := be16 (b.getD 2 0) (b.getD 3 0)
  , hw_addr_len := b.getD 4 0
  , proto_addr_len := b.getD 5 0
  , opcode := be16 (b.getD 6 0) (b.getD 7 0)
  , hw_src_addr := [b.getD 8 0, b.getD 9 0, b.getD 10 0,
                    b.getD 11 0, b.getD 12 0, b.getD 13 0]
  , proto_src_addr := be32 (b.getD 14 0) (b.getD 15 0) (b.getD 16 0) (b.getD 17 0)
  , hw_dst_addr := [b.getD 18 0, b.getD 19 0, b.getD 20 0,
                    b.getD 21 0, b.getD 22 0, b.getD 23 0]
  , proto_dst_addr := be32 (b.getD 24 0) (b.getD 25 0) (b.getD 26 0) (b.getD 27 0) }

/-- Overwrite `bs.length` bytes of `p` starting at byte offset `off` (embeds
the in-place header rewrites done on buffered packets). -/
def writeBytes (p : Packet) (off : Nat) (bs : List Nat) : Packet :=
  p.take off ++ bs ++ p.drop (off + bs.length)

/-- `SimpleRouterMgr::send_packetout`: appends one packet-out message to the
stream (recorded in the `outPackets` trace). -/
def send_packetout (s : RouterState) (p : Packet) : RouterState :=
  { s with outPackets := s.outPackets ++ [p] }

/-- `SimpleRouterMgr::add_one_entry`: one `TableWrite` RPC; the entry is
recorded in the `deviceEntries` trace and the device's error count for this
write (the head of `deviceErrs`, 0 by default) is returned. -/
def add_one_entry (s : RouterState) (e : TableEntry) : Nat × RouterState :=
  (s.deviceErrs.headD 0,
   { s with deviceEntries := s.deviceEntries ++ [e],
            deviceErrs := s.deviceErrs.tail })

/-- The `ipv4_lpm` entry built by `add_route_` in `DEVICE_STATE` mode: LPM
match on `ipv4.dstAddr` with value `nhop` (sic) and length `pLen`, action
`set_nhop(nhop_ipv4 = nhop, port = port)`. -/
def routeEntry (pi : P4Info) (pLen nhop port : Nat) : TableEntry :=
  { tableId := pi.tableId TableName.ipv4_lpm
  , matchFields := [MatchFieldV.lpm (pi.fieldId FieldName.ipv4_dstAddr)
      (uint_to_string32 nhop) pLen]
  , action := { actionId := pi.actionId ActionName.set_nhop
              , params := [(pi.paramId (pi.actionId ActionName.set_nhop) ParamName.nhop_ipv4,
                            uint_to_string32 nhop),
                           (pi.paramId (pi.actionId ActionName.set_nhop) ParamName.port,
                            uint_to_string16 port)] } }

/-- The `forward` entry built by `add_arp_entry`: exact match on
`routing_metadata.nhop_ipv4`, action `set_dmac(dmac = mac)`. -/
def arpEntry (pi : P4Info) (addr : Nat) (mac : List Nat) : TableEntry :=
  { tableId := pi.tableId TableName.forward
  , matchFields := [MatchFieldV.exact (pi.fieldId FieldName.nhop_ipv4)
      (uint_to_string32 addr)]
  , action := { actionId := pi.actionId ActionName.set_dmac
              , params := [(pi.paramId (pi.actionId ActionName.set_dmac) ParamName.dmac,
                            mac)] } }

/-- The `send_frame` entry built by `assign_mac_addr`: exact match on
`standard_metadata.egress_port`, action `rewrite_mac(smac = mac)`. -/
def smacEntry (pi : P4Info) (port : Nat) (mac : List Nat) : TableEntry :=
  { tableId := pi.tableId TableName.send_frame
  , matchFields := [MatchFieldV.exact (pi.fieldId FieldName.egress_port)
      (uint_to_string16 port)]
  , action := { actionId := pi.actionId ActionName.rewrite_mac
              , params := [(pi.paramId (pi.actionId ActionName.rewrite_mac) ParamName.smac,
                            mac)] } }

/-- The `forward` entry installed by `set_default_entries`: exact match on
`routing_metadata.nhop_ipv4` with value 0, action `_drop` with no params. -/
def defaultForwardEntry (pi : P4Info) : TableEntry :=
  { tableId := pi.tableId TableName.forward
  , matchFields := [MatchFieldV.exact (pi.fieldId FieldName.nhop_ipv4)
      (uint_to_string32 0)]
  , action := { actionId := pi.actionId ActionName.drop_, params := [] } }

/-- `SimpleRouterMgr::add_arp_entry`. -/
def add_arp_entry (s : RouterState) (addr : Nat) (mac : List Nat) :
    Nat × RouterState :=
  add_one_entry s (arpEntry s.p4info addr mac)

/-- `SimpleRouterMgr::assign_mac_addr`. -/
def assign_mac_addr (s : RouterState) (port : Nat) (mac : List Nat) :
    Nat × RouterState :=
  add_one_entry s (smacEntry s.p4info port mac)

/-- `SimpleRouterMgr::UpdateMode`. -/
inductive UpdateMode where
  | controllerState
  | deviceState
deriving DecidableEq, Repr

/-- `SimpleRouterMgr::add_route_`: in `DEVICE_STATE` mode writes the
`ipv4_lpm` entry to the device and returns its error count; in
`CONTROLLER_STATE` mode assigns `next_hops[nhop] = port` and returns 0. -/
def add_route_ (s : RouterState) (pfx pLen nhop port : Nat)
    (mode : UpdateMode) : Nat × RouterState :=
  match mode with
  | UpdateMode.deviceState => add_one_entry s (routeEntry s.p4info pLen nhop port)
  | UpdateMode.controllerState =>
      (0, { s with nextHops := updateAssoc s.nextHops nhop port })

/-- `SimpleRouterMgr::add_route`: performs the controller-state update, then
the device-state update, and ORs the two error indications together. -/
def add_route (s : RouterState) (pfx pLen nhop port : Nat) : Nat × RouterState :=
  let r1 := add_route_ s pfx pLen nhop port UpdateMode.controllerState
  let r2 := add_route_ r1.2 pfx pLen nhop port UpdateMode.deviceState
  (r1.1 ||| r2.1, r2.2)

/-- `SimpleRouterMgr::add_iface_`: in `CONTROLLER_STATE` mode appends the
interface; in `DEVICE_STATE` mode looks the port up in the controller-side
interface list and, if found, installs the `send_frame` MAC-rewrite entry for
the stored interface's MAC (first match only). -/
def add_iface_ (s : RouterState) (port_num ip_addr : Nat) (mac_addr : List Nat)
    (mode : UpdateMode) : RouterState :=
  match mode with
  | UpdateMode.controllerState =>
      { s with ifaces := s.ifaces ++ [⟨port_num, ip_addr, mac_addr⟩] }
  | UpdateMode.deviceState =>
      match s.ifaces.find? (fun i => i.port_num == port_num) with
      | none => s
      | some i => (assign_mac_addr s port_num i.mac_addr).2

/-- `SimpleRouterMgr::add_iface`: both update modes in sequence. -/
def add_iface (s : RouterState) (port_num ip_addr : Nat) (mac_addr : List Nat) :
    RouterState :=
  add_iface_ (add_iface_ s port_num ip_addr mac_addr UpdateMode.controllerState)
    port_num ip_addr mac_addr UpdateMode.deviceState

/-- `SimpleRouterMgr::set_default_entries`: writes the `_drop` default entry
for `forward`; the write's error count is only printed to stdout — the
function's `rc` stays 0 and is returned unchanged. -/
def set_default_entries (s : RouterState) : Nat × RouterState :=
  let rc := 0
  let r := add_one_entry s (defaultForwardEntry s.p4info)
  (rc, r.2)

/-- `SimpleRouterMgr::static_config_`: the two hard-coded routes
(10.0.0.10 via port 1, 10.0.1.10 via port 2) and the two hard-coded
interfaces (ports 1 and 2), in one update mode. -/
def static_config_ (s : RouterState) (mode : UpdateMode) : RouterState :=
  let s1 := (add_route_ s 0x0a00000a 32 0x0a00000a 1 mode).2
  let s2 := (add_route_ s1 0x0a00010a 32 0x0a00010a 2 mode).2
  let s3 := add_iface_ s2 1 0x0a000001 [0x00, 0xaa, 0xbb, 0x00, 0x00, 0x00] mode
  add_iface_ s3 2 0x0a000101 [0x00, 0xaa, 0xbb, 0x00, 0x00, 0x01] mode

/-- `SimpleRouterMgr::static_config`: both update modes in sequence. -/
def static_config (s : RouterState) : RouterState :=
  static_config_ (static_config_ s UpdateMode.controllerState) UpdateMode.deviceState

/-- The broadcast MAC ff:ff:ff:ff:ff:ff. -/
def broadcastMac : List Nat := [0xff, 0xff, 0xff, 0xff, 0xff, 0xff]

/-- `SimpleRouterMgr::handle_arp_request`: scan the interfaces for one whose
IP equals the request's target protocol address; on the first match build and
send exactly one ARP reply (CPU header reason `ARP_MSG` and the interface's
port, Ethernet destination = requester's MAC, source = interface MAC,
ethertype 0x806, ARP opcode 2 with sender = interface MAC/IP and target =
requester MAC/IP) and return; otherwise do nothing. -/
def handle_arp_request (s : RouterState) (arp : arp_header_t) : RouterState :=
  match s.ifaces.find? (fun i => i.ip_addr == arp.proto_dst_addr) with
  | none => s
  | some i =>
      send_packetout s
        (set_cpu_header 1 i.port_num ++
         set_eth_header arp.hw_src_addr i.mac_addr 0x806 ++
         set_arp_header 2 i.mac_addr i.ip_addr arp.hw_src_addr arp.proto_src_addr)

/-- The in-place rewrite `handle_arp_reply` applies to each buffered packet:
overwrite the CPU header with reason `DATA_PKT` (2) and the next-hop port,
then overwrite the Ethernet destination MAC (bytes 12..17) with the ARP
reply's sender MAC. -/
def rewriteQueued (p : Packet) (port : Nat) (mac : List Nat) : Packet :=
  writeBytes (writeBytes p 0 (set_cpu_header 2 port)) 12 mac

/-- `SimpleRouterMgr::handle_arp_reply`: install the device-side `forward`
entry for the reply's sender IP/MAC, then, if a pending queue exists for that
IP, reinject every buffered packet in order (rewritten in place) and erase
the queue.  `next_hops[dst_addr]` is a `std::map::operator[]` read, which
default-inserts 0 when the key is absent. -/
def handle_arp_reply (s : RouterState) (arp : arp_header_t) : RouterState :=
  let dst := arp.proto_src_addr
  let s1 := (add_arp_entry s dst arp.hw_src_addr).2
  match lookupAssoc s1.packetQueues dst with
  | none => s1
  | some q =>
      let pn := mapGetOrInsert s1.nextHops dst
      { s1 with nextHops := pn.2
              , outPackets := s1.outPackets ++
                  q.map (fun p => rewriteQueued p pn.1 arp.hw_src_addr)
              , packetQueues := eraseAssoc s1.packetQueues dst }

/-- `SimpleRouterMgr::handle_arp`: dispatch on the ARP opcode; any opcode
other than 1 (request) or 2 (reply) hits `assert(0)`, modelled as `none`. -/
def handle_arp (s : RouterState) (arp : arp_header_t) : Option RouterState :=
  if arp.opcode = 1 then some (handle_arp_request s arp)
  else if arp.opcode = 2 then some (handle_arp_reply s arp)
  else none

/-- `SimpleRouterMgr::send_arp_request`: scan the interfaces for the given
port; on the first match build and send one broadcast ARP request (CPU header
reason `ARP_MSG` and the port, Ethernet destination = broadcast, source =
interface MAC, ARP opcode 1 with sender = interface MAC/IP, target MAC =
broadcast, target IP = the unresolved address) and return. -/
def send_arp_request (s : RouterState) (port dst_addr : Nat) : RouterState :=
  match s.ifaces.find? (fun i => i.port_num == port) with
  | none => s
  | some i =>
      send_packetout s
        (set_cpu_header 1 port ++
         set_eth_header broadcastMac i.mac_addr 0x806 ++
         set_arp_header 1 i.mac_addr i.ip_addr broadcastMac dst_addr)

/-- `SimpleRouterMgr::handle_ip`: if the destination has no next-hop entry,
drop; otherwise enqueue the raw punted packet on the destination's pending
queue (creating it on first miss) and send an ARP request out the resolved
port — on every miss, not only the first. -/
def handle_ip (s : RouterState) (pkt : Packet) (dst_addr : Nat) : RouterState :=
  match lookupAssoc s.nextHops dst_addr with
  | none => s
  | some port =>
      send_arp_request
        { s with packetQueues := enqueuePQ s.packetQueues dst_addr pkt }
        port dst_addr

/-- The CPU-header reason field of a punted packet (bytes 8..9, big-endian). -/
def reasonOf (pkt : Packet) : Nat := be16 (pkt.getD 8 0) (pkt.getD 9 0)

/-- The ARP opcode of a punted ARP message (bytes 32..33: offset 26 for the
CPU and Ethernet headers plus 6 into the ARP header, big-endian). -/
def arpOpcodeOf (pkt : Packet) : Nat := be16 (pkt.getD 32 0) (pkt.getD 33 0)

/-- Modelled from the spec: the layout of `ipv4_header_t`, declared in the
repository's `simple_router_mgr.h` which is not under `src/`.  Per §4.1 only
`dst_addr : u32` is consumed, at a fixed offset inside the fragment; the
fragment is the standard 20-byte IPv4 header with `dst_addr` big-endian at
bytes 16..19. -/
def ipv4HeaderSize : Nat := 20

/-- Modelled from the spec: byte offset of `dst_addr` inside `ipv4_header_t`
(see `ipv4HeaderSize`). -/
def ipv4DstAddrOffset : Nat := 16

/-- The IPv4 destination address of a punted `NO_ARP_ENTRY` packet
(bytes 42..45 = 26 + `ipv4DstAddrOffset`, big-endian). -/
def ipDstOf (pkt : Packet) : Nat :=
  be32 (pkt.getD 42 0) (pkt.getD 43 0) (pkt.getD 44 0) (pkt.getD 45 0)

/-- `PacketHandler::operator()`: best-effort parse of one punted packet.
Too-short packets and packets with non-zero reserved bytes are silently
dropped (`some s`, state unchanged), reason `NO_ARP_ENTRY` (0) dispatches to
`handle_ip` with the whole packet, reason `ARP_MSG` (1) dispatches to
`handle_arp` (whose unknown-opcode `assert(0)` is `none`), and every other
reason falls through with no effect. -/
def packetHandler (s : RouterState) (pkt : Packet) : Option RouterState :=
  if pkt.length < 12 then some s
  else if pkt.take 8 ≠ [0, 0, 0, 0, 0, 0, 0, 0] then some s
  else if pkt.length - 12 < 14 then some s
  else if reasonOf pkt = 0 then
    if pkt.length - 26 < ipv4HeaderSize then some s
    else some (handle_ip s pkt (ipDstOf pkt))
  else if reasonOf pkt = 1 then
    if pkt.length - 26 < 28 then some s
    else handle_arp s (parse_arp_header (pkt.drop 26))
  else some s

/-- `CounterQueryHandler::operator()`: run on the actor; on a non-zero
`query_counter_` result the packet count of the returned data is set to the
all-ones `uint64` value. -/
def counterQueryHandler (rc : Nat) (d : CounterData) : CounterData :=
  if rc ≠ 0 then { d with packets := 2 ^ 64 - 1 } else d

/-- `SimpleRouterMgr::query_counter`: blocks on the actor's answer and maps a
packet count equal to the all-ones `uint64` value to failure (1); otherwise
returns 0 together with the counter data.  `rc` and `d` are the result and
data produced by `query_counter_` on the actor. -/
def query_counter (rc : Nat) (d : CounterData) : Nat × Option CounterData :=
  let d' := counterQueryHandler rc d
  if d'.packets = 2 ^ 64 - 1 then (1, none) else (0, some d')

/-- `SimpleRouterMgr::update_config_`: switch the local pipeline description
to the freshly parsed one, then `DeviceUpdateStart`; on non-OK report failure
(1) with no entries re-pushed.  Otherwise re-push the default entries and the
static device-side config (controller state unchanged), then
`DeviceUpdateEnd`; non-OK is failure (1), otherwise success (0).
`startCode`/`endCode` are the `google.rpc` status codes the device returns
(0 = OK). -/
def update_config_ (s : RouterState) (newInfo : P4Info) (startCode endCode : Nat) :
    Nat × RouterState :=
  let s1 := { s with p4info := newInfo }
  if startCode ≠ 0 then (1, s1)
  else
    let s2 := (set_default_entries s1).2
    let s3 := static_config_ s2 UpdateMode.deviceState
    if endCode ≠ 0 then (1, s3) else (0, s3)

/-- The device-side entries written during a state transition, i.e. the
suffix of the final trace beyond the initial trace. -/
def pushedEntries (before after : RouterState) : List TableEntry :=
  after.deviceEntries.drop before.deviceEntries.length

/-- One command processed by the single-threaded actor: a punted packet from
the receive loop, a route/interface installation, a default-entry
installation, or a pipeline reload. -/
inductive Op where
  | packet (pkt : Packet)
  | addRoute (pfx pLen nhop port : Nat)
  | addIface (port ip : Nat) (mac : List Nat)
  | setDefaults
  | staticConfig
  | reload (newInfo : P4Info) (startCode endCode : Nat)

/-- Execute one actor command; `none` models a failed assertion (process
abort). -/
def runOp (s : RouterState) : Op → Option RouterState
  | Op.packet pkt => packetHandler s pkt
  | Op.addRoute pfx pLen nhop port => some (add_route s pfx pLen nhop port).2
  | Op.addIface port ip mac => some (add_iface s port ip mac)
  | Op.setDefaults => some (set_default_entries s).2
  | Op.staticConfig => some (static_config s)
  | Op.reload newInfo sc ec => some (update_config_ s newInfo sc ec).2

/-- Execute a sequence of actor commands, stopping at an abort. -/
def run (s : RouterState) : List Op → Option RouterState
  | [] => some s
  | op :: ops =>
      match runOp s op with
      | none => none
      | some s' => run s' ops

/-- The manager's state right after construction: all maps empty, a given
pipeline description, and a given stream of device error counts. -/
def initState (pi : P4Info) (errs : List Nat) : RouterState :=
  { nextHops := [], packetQueues := [], ifaces := [], p4info := pi,
    outPackets := [], deviceEntries := [], deviceErrs := errs }

/-- The pending-queue invariant: every destination with a pending queue has a
non-empty queue and a next-hop entry. -/
def pqInvAux (pq : List (Nat × List Packet)) (nh : List (Nat × Nat)) : Prop :=
  ∀ kq ∈ pq, kq.2 ≠ [] ∧ lookupAssoc nh kq.1 ≠ none

/-- The pending-queue invariant, as a property of the router state. -/
def pqInvariant (s : RouterState) : Prop := pqInvAux s.packetQueues s.nextHops

/-- A concrete id assignment for tests: distinct ids for distinct names. -/
def testP4Info : P4Info :=
  { tableId := fun t => match t with
      | TableName.ipv4_lpm => 10
      | TableName.forward => 11
      | TableName.send_frame => 12
  , actionId := fun a => match a with
      | ActionName.set_nhop => 20
      | ActionName.set_dmac => 21
      | ActionName.rewrite_mac => 22
      | ActionName.drop_ => 23
  , fieldId := fun f => match f with
      | FieldName.ipv4_dstAddr => 30
      | FieldName.nhop_ipv4 => 31
      | FieldName.egress_port => 32
  , paramId := fun a p => 100 * a + (match p with
      | ParamName.nhop_ipv4 => 1
      | ParamName.port => 2
      | ParamName.dmac => 3
      | ParamName.smac => 4) }

/-- A second concrete id assignment, playing the role of a reloaded pipeline
description with different ids. -/
def testP4Info2 : P4Info :=
  { tableId := fun t => match t with
      | TableName.ipv4_lpm => 50
      | TableName.forward => 51
      | TableName.send_frame => 52
  , actionId := fun a => match a with
      | ActionName.set_nhop => 60
      | ActionName.set_dmac => 61
      | ActionName.rewrite_mac => 62
      | ActionName.drop_ => 63
  , fieldId := fun f => match f with
      | FieldName.ipv4_dstAddr => 70
      | FieldName.nhop_ipv4 => 71
      | FieldName.egress_port => 72
  , paramId := fun a p => 1000 * a + (match p with
      | ParamName.nhop_ipv4 => 1
      | ParamName.port => 2
      | ParamName.dmac => 3
      | ParamName.smac => 4) }

/-- A concrete interface at port 1 (the first static-config interface). -/
def iface1 : Iface := ⟨1, 0x0a000001, [0x00, 0xaa, 0xbb, 0x00, 0x00, 0x00]⟩

/-- A concrete decoded ARP request targeting `iface1`'s IP. -/
def arpRequestA : arp_header_t :=
  { hw_type := 1, proto_type := 0x800, hw_addr_len := 6, proto_addr_len := 4
  , opcode := 1
  , hw_src_addr := [0x00, 0xaa, 0xbb, 0x00, 0x00, 0x02]
  , proto_src_addr := 0x0a00000a
  , hw_dst_addr := [0, 0, 0, 0, 0, 0]
  , proto_dst_addr := 0x0a000001 }

/-- A concrete decoded ARP reply from 10.0.0.10. -/
def arpReplyA : arp_header_t :=
  { hw_type := 1, proto_type := 0x800, hw_addr_len := 6, proto_addr_len := 4
  , opcode := 2
  , hw_src_addr := [0x00, 0xaa, 0xbb, 0x00, 0x00, 0x02]
  , proto_src_addr := 0x0a00000a
  , hw_dst_addr := [0x00, 0xaa, 0xbb, 0x00, 0x00, 0x00]
  , proto_dst_addr := 0x0a000001 }

/-- A concrete 46-byte buffered punted packet. -/
def pktQueuedA : Packet := List.replicate 46 7

/-- A concrete state: interface at port 1, a next-hop entry for 10.0.0.10 via
port 1, and a non-empty pending queue for 10.0.0.10 (the `Resolving` state of
the spec's scenario). -/
def routerStateA : RouterState :=
  { nextHops := [(0x0a00000a, 1)]
  , packetQueues := [(0x0a00000a, [pktQueuedA])]
  , ifaces := [iface1]
  , p4info := testP4Info
  , outPackets := []
  , deviceEntries := []
  , deviceErrs := [] }

/-- A concrete punted ARP message whose ARP opcode is 3 (neither request nor
reply): 12-byte CPU header with reason `ARP_MSG`, 14-byte Ethernet header,
28-byte ARP header with opcode bytes `[0, 3]`. -/
def badArpPkt : Packet :=
  [0, 0, 0, 0, 0, 0, 0, 0] ++ [0, 1] ++ [0, 0] ++ List.replicate 14 0 ++
  ([0, 1, 8, 0, 6, 4, 0, 3] ++ List.replicate 20 0)

/-- A concrete punted `NO_ARP_ENTRY` packet naming destination 5: 12-byte CPU
header with reason 0, 14-byte Ethernet header, 20-byte IPv4 header with
destination address bytes `[0, 0, 0, 5]`. -/
def pktNoArpA : Packet :=
  [0, 0, 0, 0, 0, 0, 0, 0] ++ [0, 0] ++ [0, 1] ++ List.replicate 14 0 ++
  (List.replicate 16 0 ++ [0, 0, 0, 5])

/-- A concrete state with one dynamically added route (next-hop 5 via
port 7). -/
def routeAddedState : RouterState :=
  (add_route (initState testP4Info []) 0 24 5 7).2

/-- A concrete command sequence: install a route for next-hop 5, then punt a
`NO_ARP_ENTRY` packet for destination 5. -/
def opsA : List Op := [Op.addRoute 0 24 5 7, Op.packet pktNoArpA]

/-- The state `opsA` reaches from the empty initial state. -/
def stateAfterOpsA : RouterState :=
  (run (initState testP4Info []) opsA).getD (initState testP4Info [])

/-- A concrete interface at port 2 (the second static-config interface). -/
def iface2 : Iface := ⟨2, 0x0a000101, [0x00, 0xaa, 0xbb, 0x00, 0x00, 0x01]⟩

/-- A concrete interface at the non-static port 3, added dynamically. -/
def iface3 : Iface := ⟨3, 0x0a000201, [0x00, 0xaa, 0xbb, 0x00, 0x00, 0x03]⟩

/-- A concrete state whose controller-side interface list holds the two
static-port interfaces and one dynamically added interface at port 3. -/
def ifacesState : RouterState :=
  { initState testP4Info [] with ifaces := [iface1, iface2, iface3] }

/-- A concrete punted `NO_ARP_ENTRY` packet truncated inside the IPv4 header
(30 bytes: full CPU and Ethernet headers, then only 4 IPv4 bytes). -/
def shortIpPkt : Packet :=
  [0, 0, 0, 0, 0, 0, 0, 0] ++ [0, 0] ++ [0, 1] ++ List.replicate 18 0

/-! ## Association-list lemmas -/

theorem lookupAssoc_updateAssoc_self (m : List (Nat × Nat)) (k v : Nat) :
    lookupAssoc (updateAssoc m k v) k = some v := by
  induction m with
  | nil => simp [updateAssoc, lookupAssoc]
  | cons kv rest ih =>
      obtain ⟨k', v'⟩ := kv
      by_cases h : k' = k <;> simp [updateAssoc, lookupAssoc, h, ih]

theorem lookupAssoc_updateAssoc_ne_none {m : List (Nat × Nat)} {k : Nat}
    (k' v : Nat) (h : lookupAssoc m k ≠ none) :
    lookupAssoc (updateAssoc m k' v) k ≠ none := by
  induction m with
  | nil => simp [lookupAssoc] at h
  | cons kv rest ih =>
      obtain ⟨a, b⟩ := kv
      by_cases ha : a = k' <;> by_cases hk : a = k <;>
        simp_all [updateAssoc, lookupAssoc]

theorem lookupAssoc_append_ne_none {m : List (Nat × Nat)} {k : Nat}
    (l : List (Nat × Nat)) (h : lookupAssoc m k ≠ none) :
    lookupAssoc (m ++ l) k ≠ none := by
  induction m with
  | nil => simp [lookupAssoc] at h
  | cons kv rest ih =>
      obtain ⟨a, b⟩ := kv
      by_cases hk : a = k <;> simp_all [lookupAssoc]

theorem lookupAssoc_mapGetOrInsert_ne_none {m : List (Nat × Nat)} {k : Nat}
    (k' : Nat) (h : lookupAssoc m k ≠ none) :
    lookupAssoc (mapGetOrInsert m k').2 k ≠ none := by
  unfold mapGetOrInsert
  cases hl : lookupAssoc m k' with
  | some v => simpa using h
  | none => exact lookupAssoc_append_ne_none _ h

theorem lookupAssoc_eq_none_of_not_mem {α : Type} {m : List (Nat × α)} {k : Nat}
    (h : k ∉ m.map Prod.fst) : lookupAssoc m k = none := by
  induction m with
  | nil => rfl
  | cons kv rest ih => simp_all [lookupAssoc, eq_comm]

theorem lookupAssoc_eraseAssoc_self {α : Type} {m : List (Nat × α)} {k : Nat}
    (h : (m.map Prod.fst).Nodup) : lookupAssoc (eraseAssoc m k) k = none := by
  induction m with
  | nil => rfl
  | cons kv rest ih =>
      obtain ⟨a, b⟩ := kv
      simp only [List.map_cons, List.nodup_cons] at h
      by_cases hk : a = k
      · subst hk
        simpa [eraseAssoc] using lookupAssoc_eq_none_of_not_mem h.1
      · simp [eraseAssoc, lookupAssoc, hk, ih h.2]

theorem lookupAssoc_eraseAssoc_ne {α : Type} {m : List (Nat × α)} {k k' : Nat}
    (h : k' ≠ k) : lookupAssoc (eraseAssoc m k) k' = lookupAssoc m k' := by
  induction m with
  | nil => rfl
  | cons kv rest ih =>
      obtain ⟨a, b⟩ := kv
      by_cases hk : a = k
      · subst hk
        simp [eraseAssoc, lookupAssoc, Ne.symm h]
      · by_cases hk' : a = k' <;> simp [eraseAssoc, lookupAssoc, hk, hk', ih, h]

theorem mem_eraseAssoc {α : Type} {m : List (Nat × α)} {k : Nat}
    {kq : Nat × α} (h : kq ∈ eraseAssoc m k) : kq ∈ m := by
  induction m with
  | nil => simpa [eraseAssoc] using h
  | cons kv rest ih =>
      obtain ⟨a, b⟩ := kv
      by_cases hk : a = k <;> simp_all [eraseAssoc]
      rcases h with h | h
      · exact Or.inl h
      · exact Or.inr (ih h)

theorem lookupAssoc_enqueuePQ_self (m : List (Nat × List Packet)) (k : Nat)
    (p : Packet) :
    lookupAssoc (enqueuePQ m k p) k = some ((lookupAssoc m k).getD [] ++ [p]) := by
  induction m with
  | nil => simp [enqueuePQ, lookupAssoc]
  | cons kv rest ih =>
      obtain ⟨a, q⟩ := kv
      by_cases hk : a = k <;> simp [enqueuePQ, lookupAssoc, hk, ih]

theorem lookupAssoc_enqueuePQ_ne {m : List (Nat × List Packet)} {k k' : Nat}
    (p : Packet) (h : k' ≠ k) :
    lookupAssoc (enqueuePQ m k p) k' = lookupAssoc m k' := by
  induction m with
  | nil => simp [enqueuePQ, lookupAssoc, Ne.symm h]
  | cons kv rest ih =>
      obtain ⟨a, q⟩ := kv
      by_cases hk : a = k
      · subst hk
        simp [enqueuePQ, lookupAssoc, Ne.symm h]
      · by_cases hk' : a = k' <;> simp [enqueuePQ, lookupAssoc, hk, hk', ih, h]

theorem mem_enqueuePQ {m : List (Nat × List Packet)} {k : Nat} {p : Packet}
    {kq : Nat × List Packet} (h : kq ∈ enqueuePQ m k p) :
    kq ∈ m ∨ (kq.1 = k ∧ kq.2 ≠ []) := by
  induction m with
  | nil =>
      simp [enqueuePQ] at h
      subst h
      exact Or.inr ⟨rfl, by simp⟩
  | cons kv rest ih =>
      obtain ⟨a, q⟩ := kv
      by_cases hk : a = k
      · subst hk
        simp [enqueuePQ] at h
        rcases h with h | h
        · subst h
          exact Or.inr ⟨rfl, by simp⟩
        · exact Or.inl (List.mem_cons_of_mem _ h)
      · simp [enqueuePQ, hk] at h
        rcases h with h | h
        · subst h
          exact Or.inl (List.mem_cons_self _ _)
        · rcases ih h with h' | h'
          · exact Or.inl (List.mem_cons_of_mem _ h')
          · exact Or.inr h'

theorem lookupAssoc_mem {α : Type} {m : List (Nat × α)} {k : Nat} {v : α}
    (h : lookupAssoc m k = some v) : (k, v) ∈ m := by
  induction m with
  | nil => simp [lookupAssoc] at h
  | cons kv rest ih =>
      obtain ⟨a, b⟩ := kv
      by_cases hk : a = k
      · subst hk
        simp [lookupAssoc] at h
        simp [h]
      · simp [lookupAssoc, hk] at h
        exact List.mem_cons_of_mem _ (ih h)

/-! ## Claim theorems -/

/-- C5: `add_route(prefix, pLen, nhop, port)` always applies both the
controller-side update (the next-hop table afterwards maps `nhop` to `port`)
and the device-side update (the `ipv4_lpm` entry is written), whatever error
count the device reports for the write; the returned error indication is
exactly the device's error count. -/
theorem add_route_updates_controller_and_device (s : RouterState)
    (pfx pLen nhop port : Nat) :
    lookupAssoc (add_route s pfx pLen nhop port).2.nextHops nhop = some port ∧
    (add_route s pfx pLen nhop port).2.deviceEntries
      = s.deviceEntries ++ [routeEntry s.p4info pLen nhop port] ∧
    (add_route s pfx pLen nhop port).1 = s.deviceErrs.headD 0 := by
  refine ⟨?_, ?_, ?_⟩
  · simpa [add_route, add_route_, add_one_entry]
      using lookupAssoc_updateAssoc_self s.nextHops nhop port
  · simp [add_route, add_route_, add_one_entry]
  · simp [add_route, add_route_, add_one_entry]

/-- C8: `set_default_entries` initializes its error indication `rc` to 0 and
returns it untouched: even when the device-side write of the default `forward`
entry reports a non-zero error count (here: the next error count in the
device's stream is 1), the write is performed, the error is only printed, and
the function still returns 0 — the caller cannot see the failure. -/
theorem set_default_entries_always_returns_zero :
    (add_one_entry (initState testP4Info [1])
        (defaultForwardEntry testP4Info)).1 = 1 ∧
    (set_default_entries (initState testP4Info [1])).1 = 0 ∧
    (set_default_entries (initState testP4Info [1])).2.deviceEntries
      = [defaultForwardEntry testP4Info] := by
  exact ⟨rfl, rfl, rfl⟩

/-- C10: `query_counter` uses the all-ones 64-bit packet count as an in-band
failure sentinel: a device read that genuinely succeeds (`rc = 0`) with a
packet count of `2^64 - 1` is reported as failure `(1, no data)`, exactly
like a failed lookup (`rc ≠ 0`), so the two are indistinguishable. -/
theorem query_counter_allones_sentinel (rc : Nat) (d e : CounterData)
    (hd : d.packets = 2 ^ 64 - 1) (hrc : rc ≠ 0) :
    query_counter 0 d = (1, none) ∧ query_counter rc e = (1, none) := by
  constructor
  · simp [query_counter, counterQueryHandler, hd]
  · simp [query_counter, counterQueryHandler, hrc]

/-- C10 witness: a genuinely successful read with packet count `2^64 - 1`
and an unknown-counter failure both evaluate to `(1, none)`. -/
theorem query_counter_allones_sentinel_witness :
    query_counter 0 ⟨2 ^ 64 - 1, 5⟩ = (1, none) ∧
    query_counter 1 ⟨3, 4⟩ = (1, none) :=
  query_counter_allones_sentinel 1 ⟨2 ^ 64 - 1, 5⟩ ⟨3, 4⟩ rfl one_ne_zero

/-- C6: the pipeline reload returns success (0) exactly when both
`DeviceUpdateStart` and `DeviceUpdateEnd` report OK (0); when
`DeviceUpdateStart` reports non-OK it returns failure (1) with the local
pipeline description already switched to the new one and no device entries
re-pushed (the state is otherwise untouched). -/
theorem update_config_success_iff_both_ok (s : RouterState) (ni : P4Info)
    (sc ec : Nat) :
    ((update_config_ s ni sc ec).1 = 0 ↔ (sc = 0 ∧ ec = 0)) ∧
    (sc ≠ 0 → update_config_ s ni sc ec = (1, { s with p4info := ni })) := by
  constructor
  · by_cases hs : sc = 0 <;> by_cases he : ec = 0 <;>
      simp [update_config_, hs, he]
  · intro h
    simp [update_config_, h]

/-- C6 witness: both RPCs OK gives success; a failing `DeviceUpdateStart`
gives failure with only the description switched. -/
theorem update_config_success_iff_both_ok_witness :
    ((update_config_ (initState testP4Info []) testP4Info2 0 0).1 = 0 ↔
      ((0 : Nat) = 0 ∧ (0 : Nat) = 0)) ∧
    update_config_ (initState testP4Info []) testP4Info2 1 0
      = (1, { initState testP4Info [] with p4info := testP4Info2 }) :=
  ⟨(update_config_success_iff_both_ok (initState testP4Info []) testP4Info2 0 0).1,
   (update_config_success_iff_both_ok (initState testP4Info []) testP4Info2 1 0).2
     one_ne_zero⟩

/-- C7: on an inbound ARP request (opcode 1), if some configured interface's
IP equals the request's target protocol address then exactly one ARP reply is
sent — out the first matching interface's port in the CPU header, Ethernet
destination = requester's MAC, Ethernet source = interface's MAC, ARP opcode
2, sender = interface MAC/IP, target = requester's MAC/IP — and nothing else
changes; if no interface IP matches, the state (outputs included) is
untouched. -/
theorem handle_arp_request_unique_reply (s : RouterState) (arp : arp_header_t)
    (hop : arp.opcode = 1) :
    handle_arp s arp = some (handle_arp_request s arp) ∧
    (s.ifaces.find? (fun i => i.ip_addr == arp.proto_dst_addr) = none →
      handle_arp_request s arp = s) ∧
    (∀ i, s.ifaces.find? (fun i => i.ip_addr == arp.proto_dst_addr) = some i →
      i ∈ s.ifaces ∧ i.ip_addr = arp.proto_dst_addr ∧
      handle_arp_request s arp =
        { s with outPackets := s.outPackets ++
            [set_cpu_header 1 i.port_num ++
             set_eth_header arp.hw_src_addr i.mac_addr 0x806 ++
             set_arp_header 2 i.mac_addr i.ip_addr arp.hw_src_addr
               arp.proto_src_addr] }) := by
  refine ⟨by simp [handle_arp, hop], ?_, ?_⟩
  · intro h
    simp [handle_arp_request, h]
  · intro i hi
    refine ⟨List.mem_of_find?_eq_some hi, ?_, ?_⟩
    · have := List.find?_some hi
      simpa using this
    · simp [handle_arp_request, hi, send_packetout]

/-- C7 witness: the request `arpRequestA` matches `iface1`'s IP in a state
with that single interface, and exactly one reply with the swapped fields is
emitted. -/
theorem handle_arp_request_unique_reply_witness :
    iface1 ∈ routerStateA.ifaces ∧
    iface1.ip_addr = arpRequestA.proto_dst_addr ∧
    handle_arp_request routerStateA arpRequestA =
      { routerStateA with outPackets := routerStateA.outPackets ++
          [set_cpu_header 1 iface1.port_num ++
           set_eth_header arpRequestA.hw_src_addr iface1.mac_addr 0x806 ++
           set_arp_header 2 iface1.mac_addr iface1.ip_addr
             arpRequestA.hw_src_addr arpRequestA.proto_src_addr] } :=
  (handle_arp_request_unique_reply routerStateA arpRequestA rfl).2.2 iface1 rfl

/-- C1: when an ARP reply whose sender IP has a non-empty pending queue is
handled, every queued packet is reinjected via packet-out exactly once, in
original FIFO order, rewritten in place (CPU header set to `DATA_PKT` and the
next-hop port, Ethernet destination MAC set to the reply's sender MAC); the
device-side exact-match `forward` entry (next-hop IP to sender MAC) is
written; and the queue entry for that destination is removed while all other
queues are untouched.  Key uniqueness (`hnodup`) holds for every `std::map`.
-/
theorem handle_arp_reply_drains_queue (s : RouterState) (arp : arp_header_t)
    (port : Nat) (q : List Packet)
    (hq : lookupAssoc s.packetQueues arp.proto_src_addr = some q)
    (hne : q ≠ [])
    (hnh : lookupAssoc s.nextHops arp.proto_src_addr = some port)
    (hnodup : (s.packetQueues.map Prod.fst).Nodup) :
    (handle_arp_reply s arp).outPackets
      = s.outPackets ++ q.map (fun p => rewriteQueued p port arp.hw_src_addr) ∧
    lookupAssoc (handle_arp_reply s arp).packetQueues arp.proto_src_addr
      = none ∧
    (∀ k, k ≠ arp.proto_src_addr →
      lookupAssoc (handle_arp_reply s arp).packetQueues k
        = lookupAssoc s.packetQueues k) ∧
    (handle_arp_reply s arp).deviceEntries
      = s.deviceEntries
        ++ [arpEntry s.p4info arp.proto_src_addr arp.hw_src_addr] ∧
    (handle_arp_reply s arp).nextHops = s.nextHops := by
  have hmgi : mapGetOrInsert s.nextHops arp.proto_src_addr = (port, s.nextHops) := by
    simp [mapGetOrInsert, hnh]
  refine ⟨?_, ?_, ?_, ?_, ?_⟩
  · simp [handle_arp_reply, add_arp_entry, add_one_entry, hq, hmgi]
  · simp [handle_arp_reply, add_arp_entry, add_one_entry, hq, hmgi,
      lookupAssoc_eraseAssoc_self hnodup]
  · intro k hk
    simp [handle_arp_reply, add_arp_entry, add_one_entry, hq, hmgi,
      lookupAssoc_eraseAssoc_ne hk]
  · simp [handle_arp_reply, add_arp_entry, add_one_entry, hq, hmgi]
  · simp [handle_arp_reply, add_arp_entry, add_one_entry, hq, hmgi]

/-- C1 witness: in the concrete `Resolving` state for 10.0.0.10, the reply
`arpReplyA` reinjects the single queued packet rewritten to the resolved MAC,
removes the queue, and installs the device-side `forward` entry. -/
theorem handle_arp_reply_drains_queue_witness :
    (handle_arp_reply routerStateA arpReplyA).outPackets
      = routerStateA.outPackets
        ++ [pktQueuedA].map (fun p => rewriteQueued p 1 arpReplyA.hw_src_addr) ∧
    lookupAssoc (handle_arp_reply routerStateA arpReplyA).packetQueues
      arpReplyA.proto_src_addr = none ∧
    (handle_arp_reply routerStateA arpReplyA).deviceEntries
      = routerStateA.deviceEntries
        ++ [arpEntry routerStateA.p4info arpReplyA.proto_src_addr
              arpReplyA.hw_src_addr] ∧
    (handle_arp_reply routerStateA arpReplyA).nextHops
      = routerStateA.nextHops := by
  obtain ⟨h1, h2, h3, h4, h5⟩ :=
    handle_arp_reply_drains_queue routerStateA arpReplyA 1 [pktQueuedA]
      rfl (by simp [pktQueuedA]) rfl (by simp [routerStateA])
  exact ⟨h1, h2, h4, h5⟩

/-- C2 counterexample: in a state already `Resolving` for 10.0.0.10 (queue
present and non-empty), handling a further punted `NO_ARP_ENTRY` packet for
that destination does not "just append": it also broadcasts another ARP
request, so a packet is sent out before any ARP reply arrives, contradicting
the claim that only the first miss broadcasts. -/
theorem handle_ip_second_miss_rebroadcasts_cex :
    lookupAssoc routerStateA.packetQueues 0x0a00000a = some [pktQueuedA] ∧
    routerStateA.outPackets = [] ∧
    (handle_ip routerStateA (List.replicate 46 9) 0x0a00000a).outPackets
      = [set_cpu_header 1 1 ++
         set_eth_header broadcastMac iface1.mac_addr 0x806 ++
         set_arp_header 1 iface1.mac_addr iface1.ip_addr broadcastMac
           0x0a00000a] := by
  exact ⟨rfl, rfl, rfl⟩

/-- C2 (amended): for every destination with a next-hop entry, handling a
punted `NO_ARP_ENTRY` packet appends the packet to that destination's pending
queue in FIFO order (creating the queue on the first miss) and leaves all
other queues, the next-hop table and the device entries unchanged; but an ARP
request is broadcast on every such miss (whenever an interface with the
resolved port exists), not only on the first, and the newly punted data
packet itself is not among the packets sent out. -/
theorem handle_ip_enqueue_fifo_and_rebroadcast (s : RouterState) (pkt : Packet)
    (dst port : Nat) (hnh : lookupAssoc s.nextHops dst = some port) :
    lookupAssoc (handle_ip s pkt dst).packetQueues dst
      = some ((lookupAssoc s.packetQueues dst).getD [] ++ [pkt]) ∧
    (∀ k, k ≠ dst → lookupAssoc (handle_ip s pkt dst).packetQueues k
      = lookupAssoc s.packetQueues k) ∧
    (handle_ip s pkt dst).outPackets
      = s.outPackets ++
        (match s.ifaces.find? (fun i => i.port_num == port) with
         | none => []
         | some i => [set_cpu_header 1 port ++
             set_eth_header broadcastMac i.mac_addr 0x806 ++
             set_arp_header 1 i.mac_addr i.ip_addr broadcastMac dst]) ∧
    (handle_ip s pkt dst).nextHops = s.nextHops ∧
    (handle_ip s pkt dst).deviceEntries = s.deviceEntries := by
  refine ⟨?_, ?_, ?_, ?_, ?_⟩
  · cases hf : s.ifaces.find? (fun i => i.port_num == port) <;>
      simp [handle_ip, hnh, send_arp_request, send_packetout, hf,
        lookupAssoc_enqueuePQ_self]
  · intro k hk
    cases hf : s.ifaces.find? (fun i => i.port_num == port) <;>
      simp [handle_ip, hnh, send_arp_request, send_packetout, hf,
        lookupAssoc_enqueuePQ_ne _ hk]
  · cases hf : s.ifaces.find? (fun i => i.port_num == port) <;>
      simp [handle_ip, hnh, send_arp_request, send_packetout, hf]
  · cases hf : s.ifaces.find? (fun i => i.port_num == port) <;>
      simp [handle_ip, hnh, send_arp_request, send_packetout, hf]
  · cases hf : s.ifaces.find? (fun i => i.port_num == port) <;>
      simp [handle_ip, hnh, send_arp_request, send_packetout, hf]

/-- C2 witness: a second miss for 10.0.0.10 in the concrete `Resolving` state
appends the new packet behind the queued one and emits exactly the broadcast
ARP request of the port-1 interface. -/
theorem handle_ip_enqueue_fifo_and_rebroadcast_witness :
    lookupAssoc (handle_ip routerStateA (List.replicate 46 9)
        0x0a00000a).packetQueues 0x0a00000a
      = some ((lookupAssoc routerStateA.packetQueues 0x0a00000a).getD []
          ++ [List.replicate 46 9]) ∧
    (handle_ip routerStateA (List.replicate 46 9) 0x0a00000a).outPackets
      = routerStateA.outPackets ++
        (match routerStateA.ifaces.find? (fun i => i.port_num == 1) with
         | none => []
         | some i => [set_cpu_header 1 1 ++
             set_eth_header broadcastMac i.mac_addr 0x806 ++
             set_arp_header 1 i.mac_addr i.ip_addr broadcastMac 0x0a00000a]) ∧
    (handle_ip routerStateA (List.replicate 46 9) 0x0a00000a).nextHops
      = routerStateA.nextHops ∧
    (handle_ip routerStateA (List.replicate 46 9) 0x0a00000a).deviceEntries
      = routerStateA.deviceEntries := by
  obtain ⟨h1, h2, h3, h4, h5⟩ :=
    handle_ip_enqueue_fifo_and_rebroadcast routerStateA (List.replicate 46 9)
      0x0a00000a 1 rfl
  exact ⟨h1, h3, h4, h5⟩

theorem getD_drop (l : List Nat) (n i d : Nat) :
    (l.drop n).getD i d = l.getD (n + i) d := by
  simp [List.getD, List.getElem?_drop]

/-- C4 counterexample: a well-formed punted ARP message whose ARP opcode is 3
drives `handle_arp` into its `default: assert(0)` branch — the
packet-processing path aborts the process instead of silently discarding the
packet. -/
theorem packetHandler_unknown_arp_opcode_aborts_cex :
    packetHandler (initState testP4Info []) badArpPkt = none := rfl

/-- C4 (amended): a punted packet that is truncated at any parsing stage
(before the end of the CPU header or Ethernet header, inside the IPv4 header
of a `NO_ARP_ENTRY` packet, or inside the ARP header of an `ARP_MSG` packet),
has non-zero reserved bytes, or carries a reason other than
`NO_ARP_ENTRY`/`ARP_MSG`, is silently discarded with no state change; but the
path is not abort-free: an abort (`assert(0)`) occurs exactly on the packets
with zero reserved bytes, reason `ARP_MSG`, a complete ARP header, and an ARP
opcode that is neither 1 (request) nor 2 (reply). -/
theorem packetHandler_silent_drop_except_arp_assert (s : RouterState)
    (pkt : Packet) :
    (pkt.length < 26 → packetHandler s pkt = some s) ∧
    (pkt.take 8 ≠ [0, 0, 0, 0, 0, 0, 0, 0] → packetHandler s pkt = some s) ∧
    (reasonOf pkt = 0 → pkt.length < 46 → packetHandler s pkt = some s) ∧
    (reasonOf pkt = 1 → pkt.length < 54 → packetHandler s pkt = some s) ∧
    (reasonOf pkt ≠ 0 → reasonOf pkt ≠ 1 → packetHandler s pkt = some s) ∧
    (packetHandler s pkt = none ↔
      (pkt.take 8 = [0, 0, 0, 0, 0, 0, 0, 0] ∧ reasonOf pkt = 1 ∧
       54 ≤ pkt.length ∧ arpOpcodeOf pkt ≠ 1 ∧ arpOpcodeOf pkt ≠ 2)) := by
  have hopc : (parse_arp_header (pkt.drop 26)).opcode = arpOpcodeOf pkt := by
    simp [parse_arp_header, arpOpcodeOf, getD_drop]
  refine ⟨?_, ?_, ?_, ?_, ?_, ?_⟩
  · intro h
    unfold packetHandler ipv4HeaderSize
    split_ifs <;> first | rfl | (exfalso; omega)
  · intro h
    unfold packetHandler ipv4HeaderSize
    split_ifs <;> rfl
  · intro h0 h1
    unfold packetHandler ipv4HeaderSize
    split_ifs <;> first | rfl | (exfalso; omega)
  · intro h0 h1
    unfold packetHandler ipv4HeaderSize
    split_ifs <;> first | rfl | (exfalso; omega)
  · intro h0 h1
    unfold packetHandler ipv4HeaderSize
    split_ifs <;> rfl
  constructor
  · intro h
    simp only [packetHandler] at h
    by_cases h1 : pkt.length < 12
    · rw [if_pos h1] at h; simp at h
    rw [if_neg h1] at h
    by_cases h2 : pkt.take 8 ≠ [0, 0, 0, 0, 0, 0, 0, 0]
    · rw [if_pos h2] at h; simp at h
    rw [if_neg h2] at h
    by_cases h3 : pkt.length - 12 < 14
    · rw [if_pos h3] at h; simp at h
    rw [if_neg h3] at h
    by_cases h4 : reasonOf pkt = 0
    · rw [if_pos h4] at h
      by_cases h4a : pkt.length - 26 < ipv4HeaderSize
      · rw [if_pos h4a] at h; simp at h
      · rw [if_neg h4a] at h; simp at h
    rw [if_neg h4] at h
    by_cases h5 : reasonOf pkt = 1
    swap
    · rw [if_neg h5] at h; simp at h
    rw [if_pos h5] at h
    by_cases h6 : pkt.length - 26 < 28
    · rw [if_pos h6] at h; simp at h
    rw [if_neg h6] at h
    refine ⟨not_not.mp h2, h5, by omega, ?_, ?_⟩
    · intro hop
      rw [← hopc] at hop
      simp [handle_arp, hop] at h
    · intro hop
      rw [← hopc] at hop
      simp [handle_arp, hop] at h
  · rintro ⟨hz, hr, hl, ho1, ho2⟩
    unfold packetHandler
    rw [if_neg (show ¬pkt.length < 12 by omega),
        if_neg (show ¬pkt.take 8 ≠ [0, 0, 0, 0, 0, 0, 0, 0] by simp [hz]),
        if_neg (show ¬pkt.length - 12 < 14 by omega),
        if_neg (show ¬reasonOf pkt = 0 by omega),
        if_pos hr,
        if_neg (show ¬pkt.length - 26 < 28 by omega)]
    simp [handle_arp, hopc, ho1, ho2]

/-- C4 witness: a 3-byte packet and a `NO_ARP_ENTRY` packet truncated inside
the IPv4 header are both silently dropped with no state change, and the
bad-opcode ARP message `badArpPkt` aborts. -/
theorem packetHandler_silent_drop_except_arp_assert_witness :
    packetHandler (initState testP4Info []) [1, 2, 3]
      = some (initState testP4Info []) ∧
    packetHandler (initState testP4Info []) shortIpPkt
      = some (initState testP4Info []) ∧
    packetHandler (initState testP4Info []) badArpPkt = none :=
  ⟨(packetHandler_silent_drop_except_arp_assert (initState testP4Info [])
      [1, 2, 3]).1 (by decide),
   (packetHandler_silent_drop_except_arp_assert (initState testP4Info [])
      shortIpPkt).2.2.1 (by decide) (by decide),
   (packetHandler_silent_drop_except_arp_assert (initState testP4Info [])
      badArpPkt).2.2.2.2.2.mpr
     ⟨by decide, by decide, by decide, by decide, by decide⟩⟩

theorem update_config_deviceEntries_exact (s : RouterState) (ni : P4Info) :
    (update_config_ s ni 0 0).2.deviceEntries
      = s.deviceEntries ++
        (defaultForwardEntry ni :: routeEntry ni 32 0x0a00000a 1 ::
         routeEntry ni 32 0x0a00010a 2 ::
         ((match s.ifaces.find? (fun i => i.port_num == 1) with
           | none => []
           | some i => [smacEntry ni 1 i.mac_addr]) ++
          (match s.ifaces.find? (fun i => i.port_num == 2) with
           | none => []
           | some i => [smacEntry ni 2 i.mac_addr]))) := by
  cases h1 : s.ifaces.find? (fun i => i.port_num == 1) <;>
    cases h2 : s.ifaces.find? (fun i => i.port_num == 2) <;>
    simp [update_config_, set_default_entries, static_config_, add_route_,
      add_iface_, add_one_entry, assign_mac_addr, h1, h2]

/-- C3 (amended): after a pipeline reload in which both `DeviceUpdateStart`
and `DeviceUpdateEnd` report OK, the reload succeeds, the controller-side
state (next-hop table, interfaces, pending queues) is left unchanged with the
new description installed, and the device-side entries re-pushed are exactly:
the default `forward` entry, the two hard-coded static routes, the MAC-rewrite
assignment for the first controller interface at port 1 (when one exists) and
likewise for port 2 — all built against the new description's ids, and
nothing else.  Routes and interfaces added dynamically via
`add_route`/`add_iface` after startup are not re-programmed (see the
counterexample). -/
theorem update_config_repushes_static_device_entries (s : RouterState)
    (ni : P4Info) :
    (update_config_ s ni 0 0).1 = 0 ∧
    (update_config_ s ni 0 0).2.nextHops = s.nextHops ∧
    (update_config_ s ni 0 0).2.ifaces = s.ifaces ∧
    (update_config_ s ni 0 0).2.packetQueues = s.packetQueues ∧
    (update_config_ s ni 0 0).2.p4info = ni ∧
    pushedEntries s (update_config_ s ni 0 0).2
      = defaultForwardEntry ni :: routeEntry ni 32 0x0a00000a 1 ::
        routeEntry ni 32 0x0a00010a 2 ::
        ((match s.ifaces.find? (fun i => i.port_num == 1) with
          | none => []
          | some i => [smacEntry ni 1 i.mac_addr]) ++
         (match s.ifaces.find? (fun i => i.port_num == 2) with
          | none => []
          | some i => [smacEntry ni 2 i.mac_addr])) := by
  refine ⟨?_, ?_, ?_, ?_, ?_, ?_⟩
  · cases h1 : s.ifaces.find? (fun i => i.port_num == 1) <;>
      cases h2 : s.ifaces.find? (fun i => i.port_num == 2) <;>
      simp [update_config_, set_default_entries, static_config_, add_route_,
        add_iface_, add_one_entry, assign_mac_addr, h1, h2]
  · cases h1 : s.ifaces.find? (fun i => i.port_num == 1) <;>
      cases h2 : s.ifaces.find? (fun i => i.port_num == 2) <;>
      simp [update_config_, set_default_entries, static_config_, add_route_,
        add_iface_, add_one_entry, assign_mac_addr, h1, h2]
  · cases h1 : s.ifaces.find? (fun i => i.port_num == 1) <;>
      cases h2 : s.ifaces.find? (fun i => i.port_num == 2) <;>
      simp [update_config_, set_default_entries, static_config_, add_route_,
        add_iface_, add_one_entry, assign_mac_addr, h1, h2]
  · cases h1 : s.ifaces.find? (fun i => i.port_num == 1) <;>
      cases h2 : s.ifaces.find? (fun i => i.port_num == 2) <;>
      simp [update_config_, set_default_entries, static_config_, add_route_,
        add_iface_, add_one_entry, assign_mac_addr, h1, h2]
  · cases h1 : s.ifaces.find? (fun i => i.port_num == 1) <;>
      cases h2 : s.ifaces.find? (fun i => i.port_num == 2) <;>
      simp [update_config_, set_default_entries, static_config_, add_route_,
        add_iface_, add_one_entry, assign_mac_addr, h1, h2]
  · simp [pushedEntries, update_config_deviceEntries_exact, List.drop_left']

/-- C3 counterexample: in a state holding a dynamically added route (next-hop
5 via port 7, added through `add_route` with prefix length 24), a fully
successful reload re-pushes only the default entry and the two hard-coded
static routes; the device-side entry for the known route to next-hop 5 is not
re-programmed, contradicting the claim that all previously known routes are.
-/
theorem update_config_omits_dynamic_route_cex :
    lookupAssoc routeAddedState.nextHops 5 = some 7 ∧
    (update_config_ routeAddedState testP4Info2 0 0).1 = 0 ∧
    pushedEntries routeAddedState
        (update_config_ routeAddedState testP4Info2 0 0).2
      = [defaultForwardEntry testP4Info2, routeEntry testP4Info2 32 0x0a00000a 1,
         routeEntry testP4Info2 32 0x0a00010a 2] ∧
    routeEntry testP4Info2 24 5 7 ∉
      pushedEntries routeAddedState
        (update_config_ routeAddedState testP4Info2 0 0).2 := by
  refine ⟨rfl, rfl, rfl, ?_⟩
  decide

/-! ## Preservation of the pending-queue invariant -/

theorem pqInvAux_mono {pq : List (Nat × List Packet)} {nh nh' : List (Nat × Nat)}
    (h : pqInvAux pq nh)
    (hm : ∀ k, lookupAssoc nh k ≠ none → lookupAssoc nh' k ≠ none) :
    pqInvAux pq nh' :=
  fun kq hk => ⟨(h kq hk).1, hm _ (h kq hk).2⟩

theorem send_arp_request_fields (s : RouterState) (port dst : Nat) :
    (send_arp_request s port dst).packetQueues = s.packetQueues ∧
    (send_arp_request s port dst).nextHops = s.nextHops := by
  cases h : s.ifaces.find? (fun i => i.port_num == port) <;>
    simp [send_arp_request, send_packetout, h]

theorem handle_ip_inv (s : RouterState) (pkt : Packet) (dst : Nat)
    (h : pqInvariant s) : pqInvariant (handle_ip s pkt dst) := by
  unfold handle_ip
  cases hl : lookupAssoc s.nextHops dst with
  | none => exact h
  | some port =>
      have hf := send_arp_request_fields
        { s with packetQueues := enqueuePQ s.packetQueues dst pkt } port dst
      unfold pqInvariant
      rw [hf.1, hf.2]
      intro kq hk
      rcases mem_enqueuePQ hk with hm | ⟨hk1, hk2⟩
      · exact h kq hm
      · exact ⟨hk2, by rw [hk1]; simp [hl]⟩

theorem handle_arp_request_fields (s : RouterState) (arp : arp_header_t) :
    (handle_arp_request s arp).packetQueues = s.packetQueues ∧
    (handle_arp_request s arp).nextHops = s.nextHops := by
  cases h : s.ifaces.find? (fun i => i.ip_addr == arp.proto_dst_addr) <;>
    simp [handle_arp_request, send_packetout, h]

theorem handle_arp_reply_fields (s : RouterState) (arp : arp_header_t) :
    ((handle_arp_reply s arp).packetQueues, (handle_arp_reply s arp).nextHops)
      = match lookupAssoc s.packetQueues arp.proto_src_addr with
        | none => (s.packetQueues, s.nextHops)
        | some _ => (eraseAssoc s.packetQueues arp.proto_src_addr,
            (mapGetOrInsert s.nextHops arp.proto_src_addr).2) := by
  cases hl : lookupAssoc s.packetQueues arp.proto_src_addr <;>
    simp [handle_arp_reply, add_arp_entry, add_one_entry, hl]

theorem handle_arp_reply_inv (s : RouterState) (arp : arp_header_t)
    (h : pqInvariant s) : pqInvariant (handle_arp_reply s arp) := by
  have hf := handle_arp_reply_fields s arp
  have h1 := congrArg Prod.fst hf
  have h2 := congrArg Prod.snd hf
  simp only at h1 h2
  unfold pqInvariant
  cases hl : lookupAssoc s.packetQueues arp.proto_src_addr with
  | none =>
      rw [hl] at h1 h2
      simp only at h1 h2
      rw [h1, h2]
      exact h
  | some q =>
      rw [hl] at h1 h2
      simp only at h1 h2
      rw [h1, h2]
      intro kq hk
      obtain ⟨hne, hnn⟩ := h kq (mem_eraseAssoc hk)
      exact ⟨hne, lookupAssoc_mapGetOrInsert_ne_none _ hnn⟩

theorem handle_arp_inv (s : RouterState) (arp : arp_header_t)
    (s' : RouterState) (h : pqInvariant s) (he : handle_arp s arp = some s') :
    pqInvariant s' := by
  unfold handle_arp at he
  by_cases ho1 : arp.opcode = 1
  · rw [if_pos ho1] at he
    injection he with he
    subst he
    unfold pqInvariant
    rw [(handle_arp_request_fields s arp).1, (handle_arp_request_fields s arp).2]
    exact h
  rw [if_neg ho1] at he
  by_cases ho2 : arp.opcode = 2
  · rw [if_pos ho2] at he
    injection he with he
    subst he
    exact handle_arp_reply_inv s arp h
  · rw [if_neg ho2] at he
    cases he

theorem packetHandler_inv (s : RouterState) (pkt : Packet) (s' : RouterState)
    (h : pqInvariant s) (he : packetHandler s pkt = some s') :
    pqInvariant s' := by
  simp only [packetHandler] at he
  split_ifs at he
  all_goals first
    | (injection he with he; subst he; assumption)
    | (injection he with he; subst he; exact handle_ip_inv _ _ _ h)
    | (exact handle_arp_inv _ _ _ h he)

theorem add_route_inv (s : RouterState) (pfx pLen nhop port : Nat)
    (h : pqInvariant s) : pqInvariant (add_route s pfx pLen nhop port).2 := by
  have hf : (add_route s pfx pLen nhop port).2.packetQueues = s.packetQueues ∧
      (add_route s pfx pLen nhop port).2.nextHops
        = updateAssoc s.nextHops nhop port := by
    simp [add_route, add_route_, add_one_entry]
  unfold pqInvariant
  rw [hf.1, hf.2]
  exact pqInvAux_mono h (fun k => lookupAssoc_updateAssoc_ne_none nhop port)

theorem add_iface_device_fields (s : RouterState) (port ip : Nat)
    (mac : List Nat) :
    (add_iface_ s port ip mac UpdateMode.deviceState).packetQueues
      = s.packetQueues ∧
    (add_iface_ s port ip mac UpdateMode.deviceState).nextHops = s.nextHops := by
  unfold add_iface_
  cases h : s.ifaces.find? (fun i => i.port_num == port) <;>
    simp [h, assign_mac_addr, add_one_entry]

theorem add_iface_inv (s : RouterState) (port ip : Nat) (mac : List Nat)
    (h : pqInvariant s) : pqInvariant (add_iface s port ip mac) := by
  have h1 := add_iface_device_fields
    (add_iface_ s port ip mac UpdateMode.controllerState) port ip mac
  have h2 : (add_iface_ s port ip mac
        UpdateMode.controllerState).packetQueues = s.packetQueues ∧
      (add_iface_ s port ip mac UpdateMode.controllerState).nextHops
        = s.nextHops := by
    simp [add_iface_]
  unfold pqInvariant add_iface
  rw [h1.1, h1.2, h2.1, h2.2]
  exact h

theorem set_default_entries_inv (s : RouterState)
    (h : pqInvariant s) : pqInvariant (set_default_entries s).2 := by
  have hf : (set_default_entries s).2.packetQueues = s.packetQueues ∧
      (set_default_entries s).2.nextHops = s.nextHops := by
    simp [set_default_entries, add_one_entry]
  unfold pqInvariant
  rw [hf.1, hf.2]
  exact h

theorem static_config_device_fields (s : RouterState) :
    (static_config_ s UpdateMode.deviceState).packetQueues = s.packetQueues ∧
    (static_config_ s UpdateMode.deviceState).nextHops = s.nextHops := by
  cases h1 : s.ifaces.find? (fun i => i.port_num == 1) <;>
    cases h2 : s.ifaces.find? (fun i => i.port_num == 2) <;>
    simp [static_config_, add_route_, add_iface_, add_one_entry,
      assign_mac_addr, h1, h2]

theorem static_config_inv (s : RouterState)
    (h : pqInvariant s) : pqInvariant (static_config s) := by
  have hc : (static_config_ s UpdateMode.controllerState).packetQueues
        = s.packetQueues ∧
      (static_config_ s UpdateMode.controllerState).nextHops
        = updateAssoc (updateAssoc s.nextHops 0x0a00000a 1) 0x0a00010a 2 := by
    simp [static_config_, add_route_, add_iface_]
  have hd := static_config_device_fields
    (static_config_ s UpdateMode.controllerState)
  unfold static_config pqInvariant
  rw [hd.1, hd.2, hc.1, hc.2]
  exact pqInvAux_mono h (fun k hk =>
    lookupAssoc_updateAssoc_ne_none 0x0a00010a 2
      (lookupAssoc_updateAssoc_ne_none 0x0a00000a 1 hk))

theorem update_config_inv (s : RouterState) (ni : P4Info) (sc ec : Nat)
    (h : pqInvariant s) : pqInvariant (update_config_ s ni sc ec).2 := by
  have hd := static_config_device_fields
    (set_default_entries { s with p4info := ni }).2
  have hs : (set_default_entries { s with p4info := ni }).2.packetQueues
        = s.packetQueues ∧
      (set_default_entries { s with p4info := ni }).2.nextHops = s.nextHops := by
    simp [set_default_entries, add_one_entry]
  unfold update_config_
  split_ifs with h1 h2 <;> unfold pqInvariant <;>
    simp only [hd.1, hd.2, hs.1, hs.2] <;> exact h

theorem runOp_inv (s : RouterState) (op : Op) (s' : RouterState)
    (h : pqInvariant s) (he : runOp s op = some s') : pqInvariant s' := by
  cases op with
  | packet pkt => exact packetHandler_inv _ _ _ h he
  | addRoute pfx pLen nhop port =>
      injection he with he
      subst he
      exact add_route_inv _ _ _ _ _ h
  | addIface port ip mac =>
      injection he with he
      subst he
      exact add_iface_inv _ _ _ _ h
  | setDefaults =>
      injection he with he
      subst he
      exact set_default_entries_inv _ h
  | staticConfig =>
      injection he with he
      subst he
      exact static_config_inv _ h
  | reload ni sc ec =>
      injection he with he
      subst he
      exact update_config_inv _ _ _ _ h

theorem run_inv (s : RouterState) (ops : List Op) (s' : RouterState)
    (h : pqInvariant s) (he : run s ops = some s') : pqInvariant s' := by
  induction ops generalizing s with
  | nil =>
      unfold run at he
      injection he with he
      subst he
      exact h
  | cons op ops ih =>
      unfold run at he
      cases ho : runOp s op with
      | none => rw [ho] at he; cases he
      | some s1 =>
          rw [ho] at he
          exact ih s1 (runOp_inv s op s1 h ho) he

/-- C9: in every state reachable by any sequence of actor commands (packet
handling, route/interface installation, default entries, static config,
reload) from the freshly constructed manager, every destination IP with a
pending-packet queue has a non-empty queue and an entry in the next-hop
table.  (Queues are created only by `handle_ip` together with their first
packet after a successful next-hop lookup, and are only ever removed whole by
`handle_arp_reply`.) -/
theorem reachable_queue_keys_have_next_hop (pi : P4Info) (errs : List Nat)
    (ops : List Op) (s' : RouterState)
    (h : run (initState pi errs) ops = some s') :
    ∀ dst q, lookupAssoc s'.packetQueues dst = some q →
      q ≠ [] ∧ lookupAssoc s'.nextHops dst ≠ none := by
  have hinit : pqInvariant (initState pi errs) := by
    intro kq hk
    simp [initState] at hk
  have hinv := run_inv _ _ _ hinit h
  intro dst q hq
  exact hinv (dst, q) (lookupAssoc_mem hq)

/-- C9 witness: after installing the route for next-hop 5 and punting one
`NO_ARP_ENTRY` packet for destination 5, the reached state has the queue
`[pktNoArpA]` for key 5, which is non-empty and backed by a next-hop entry. -/
theorem reachable_queue_keys_have_next_hop_witness :
    lookupAssoc stateAfterOpsA.packetQueues 5 = some [pktNoArpA] ∧
    ([pktNoArpA] ≠ [] ∧ lookupAssoc stateAfterOpsA.nextHops 5 ≠ none) :=
  ⟨rfl, reachable_queue_keys_have_next_hop testP4Info [] opsA stateAfterOpsA
    rfl 5 [pktNoArpA] rfl⟩

/-- C3 witness: in a state with controller interfaces at ports 1, 2 and 3, a
fully successful reload keeps the controller state, succeeds, and re-pushes
exactly the default entry, the two static routes and the MAC assignments for
the port-1 and port-2 interfaces against the new description — the port-3
interface's MAC assignment is not re-pushed. -/
theorem update_config_repushes_static_device_entries_witness :
    (update_config_ ifacesState testP4Info2 0 0).1 = 0 ∧
    (update_config_ ifacesState testP4Info2 0 0).2.ifaces
      = ifacesState.ifaces ∧
    pushedEntries ifacesState (update_config_ ifacesState testP4Info2 0 0).2
      = [defaultForwardEntry testP4Info2,
         routeEntry testP4Info2 32 0x0a00000a 1,
         routeEntry testP4Info2 32 0x0a00010a 2,
         smacEntry testP4Info2 1 iface1.mac_addr,
         smacEntry testP4Info2 2 iface2.mac_addr] ∧
    smacEntry testP4Info2 3 iface3.mac_addr ∉
      pushedEntries ifacesState
        (update_config_ ifacesState testP4Info2 0 0).2 := by
  obtain ⟨h1, h2, h3, h4, h5, h6⟩ :=
    update_config_repushes_static_device_entries ifacesState testP4Info2
  refine ⟨h1, h3, ?_, ?_⟩
  · rw [h6]; rfl
  · rw [h6]; decide
